import Mathlib

/-!
Verification of the Cadence workflow visibility subsystem against its
natural-language specification.

The development shallowly embeds the relevant parts of the source:
  * common/persistence/serializer.go             (CadenceSerializer)
  * common/persistence/elasticsearch/elasticsearchVisibility.go
  * common/persistence/cassandra/cassandraVisibilityPersistenceV2.go
Request/response shapes follow the visibility interfaces file
(src/unnamed/part_001).

Code of the repository that the claims depend on but that is not part of
the provided sources (the JSON and ThriftRW codecs, p.NewDataBlob and
DataBlob.GetEncoding, the thrift-generated accessors, isThrottlingError)
is modelled from the specification; each such definition carries a
doc comment starting with: Modelled from the spec.
-/

namespace Cadence

/-- Encoding tags are plain strings in the source (common.EncodingType). -/
abbrev EncodingType := String

/-- common.EncodingTypeJSON -/
def encodingTypeJSON : EncodingType := "json"

/-- common.EncodingTypeThriftRW -/
def encodingTypeThriftRW : EncodingType := "thriftrw"

/-- common.EncodingTypeGob -/
def encodingTypeGob : EncodingType := "gob"

/-- common.EncodingTypeEmpty -/
def encodingTypeEmpty : EncodingType := ""

/-- common.EncodingTypeUnknown -/
def encodingTypeUnknown : EncodingType := "unknown"

/-- A history event (workflow.HistoryEvent, thrift-generated).  The struct
has many optional attribute fields; the embedding keeps a representative
selection.  The zero value has every field absent. -/
structure HistoryEvent where
  eventId : Option Int := none
  timestamp : Option Int := none
  eventType : Option Int := none
  version : Option Int := none
  taskId : Option Int := none
  deriving DecidableEq, Repr

/-- A visibility memo (workflow.Memo): a map from field name to raw bytes.
The zero value has no fields. -/
structure Memo where
  fields : List (String × List Nat) := []
  deriving DecidableEq, Repr

/-- esVisibilityPageToken (elasticsearchVisibility.go). -/
structure esVisibilityPageToken where
  From : Int := 0
  SortTime : Int := 0
  TieBreaker : String := ""
  deriving DecidableEq, Repr

/-- Modelled from the spec: byte strings are represented symbolically so
that the external codecs (encoding/json, the ThriftRW binary encoder of
common/codec, both outside src/) are injective encoders with matching
decoders, as the round-trip law of the spec requires.  `raw` stands for
any byte string that is not a codec output (a malformed payload). -/
inductive Bytes where
  | jsonOfBatch (events : List HistoryEvent)
  | jsonOfEvent (event : HistoryEvent)
  | jsonOfMemo (memo : Memo)
  | jsonOfPageToken (token : esVisibilityPageToken)
  | thriftOfHistory (events : List HistoryEvent)
  | thriftOfEvent (event : HistoryEvent)
  | thriftOfMemo (memo : Memo)
  | raw (bytes : List Nat)
  deriving DecidableEq, Repr

/-- len(data) == 0 on the symbolic byte strings: every codec output is a
non-empty byte string; only a raw empty byte string is empty. -/
def Bytes.isEmpty : Bytes → Bool
  | .raw bytes => bytes.isEmpty
  | _ => false

/-- Modelled from the spec: json.Unmarshal into []*workflow.HistoryEvent
succeeds exactly on json-encoded batches. -/
def jsonUnmarshalBatch : Bytes → Option (List HistoryEvent)
  | .jsonOfBatch events => some events
  | _ => none

/-- Modelled from the spec: json.Unmarshal into workflow.HistoryEvent. -/
def jsonUnmarshalEvent : Bytes → Option HistoryEvent
  | .jsonOfEvent event => some event
  | _ => none

/-- Modelled from the spec: json.Unmarshal into workflow.Memo. -/
def jsonUnmarshalMemo : Bytes → Option Memo
  | .jsonOfMemo memo => some memo
  | _ => none

/-- Modelled from the spec: ThriftRW decode into a workflow.History
envelope. -/
def thriftDecodeHistory : Bytes → Option (List HistoryEvent)
  | .thriftOfHistory events => some events
  | _ => none

/-- Modelled from the spec: ThriftRW decode into workflow.HistoryEvent. -/
def thriftDecodeEvent : Bytes → Option HistoryEvent
  | .thriftOfEvent event => some event
  | _ => none

/-- Modelled from the spec: ThriftRW decode into workflow.Memo. -/
def thriftDecodeMemo : Bytes → Option Memo
  | .thriftOfMemo memo => some memo
  | _ => none

/-- The three value kinds handled by the serializer entry points:
a history-event batch, a single history event, a visibility memo. -/
inductive SerializeValue where
  | batch (events : List HistoryEvent)
  | event (event : HistoryEvent)
  | memo (memo : Memo)
  deriving DecidableEq, Repr

/-- serializerImpl.thriftrwEncode (serializer.go): a batch is wrapped in a
History envelope; a single event and a memo are encoded directly.  The
default branch (any other type, returning empty data without error) is
unreachable from the three public entry points. -/
def thriftrwEncode : SerializeValue → Bytes
  | .batch events => .thriftOfHistory events
  | .event event => .thriftOfEvent event
  | .memo memo => .thriftOfMemo memo

/-- Modelled from the spec: json.Marshal of the three supported value
kinds (it cannot fail on them). -/
def jsonMarshal : SerializeValue → Bytes
  | .batch events => .jsonOfBatch events
  | .event event => .jsonOfEvent event
  | .memo memo => .jsonOfMemo memo

/-- DataBlob: a payload together with its encoding tag. -/
structure DataBlob where
  data : Bytes
  encoding : EncodingType
  deriving DecidableEq, Repr

/-- Modelled from the spec: p.NewDataBlob (persistence data interfaces,
not under src/) returns a nil blob for empty data, otherwise the tagged
blob. -/
def NewDataBlob (data : Bytes) (encodingType : EncodingType) : Option DataBlob :=
  if data.isEmpty then none else some { data := data, encoding := encodingType }

/-- Modelled from the spec: DataBlob.GetEncoding (not under src/) keeps a
recognized tag and normalizes any other tag to the unknown tag. -/
def DataBlob.GetEncoding (d : DataBlob) : EncodingType :=
  if d.encoding = encodingTypeJSON ∨ d.encoding = encodingTypeThriftRW ∨
      d.encoding = encodingTypeGob ∨ d.encoding = encodingTypeEmpty then
    d.encoding
  else
    encodingTypeUnknown

/-- The serializer error taxonomy (serializer.go): UnknownEncodingTypeError,
CadenceSerializationError, CadenceDeserializationError. -/
inductive SerializerError where
  | unknownEncodingTypeError (encodingType : EncodingType)
  | serializationError (msg : String)
  | deserializationError (msg : String)
  deriving DecidableEq, Repr

/-- The message of the empty-data deserialization error (serializer.go
line 147). -/
def emptyDataMsg : String := "DeserializeEvent empty data"

/-- The deserialization failure message (serializer.go line 161): the
format string interpolates the raw encoding tag of the blob and the
cause. -/
def deserializeErrMsg (encoding : EncodingType) (cause : String) : String :=
  "DeserializeBatchEvents encoding: \"" ++ encoding ++ "\", error: " ++ cause

/-- Modelled from the spec: the error text produced by a failing
json.Unmarshal. -/
def jsonDecodeFailMsg : String := "json unmarshal failed"

/-- Modelled from the spec: the error text produced by a failing ThriftRW
decode. -/
def thriftDecodeFailMsg : String := "thriftrw decode failed"

/-- serializerImpl.serialize (serializer.go lines 106 to 127).  The nil
input branch is unreachable here because the embedded values are never
nil; marshal failures do not occur for the modelled total codecs, so the
CadenceSerializationError wrap is not taken. -/
def serialize (input : SerializeValue) (encodingType : EncodingType) :
    Except SerializerError (Option DataBlob) :=
  if encodingType = encodingTypeThriftRW then
    .ok (NewDataBlob (thriftrwEncode input) encodingType)
  else if encodingType = encodingTypeJSON ∨ encodingType = encodingTypeUnknown ∨
      encodingType = encodingTypeEmpty then
    .ok (NewDataBlob (jsonMarshal input) encodingType)
  else
    .error (.unknownEncodingTypeError encodingType)

/-- serializerImpl.SerializeBatchEvents. -/
def SerializeBatchEvents (events : List HistoryEvent) (encodingType : EncodingType) :
    Except SerializerError (Option DataBlob) :=
  serialize (.batch events) encodingType

/-- serializerImpl.SerializeEvent. -/
def SerializeEvent (event : HistoryEvent) (encodingType : EncodingType) :
    Except SerializerError (Option DataBlob) :=
  serialize (.event event) encodingType

/-- serializerImpl.SerializeVisibilityMemo. -/
def SerializeVisibilityMemo (memo : Memo) (encodingType : EncodingType) :
    Except SerializerError (Option DataBlob) :=
  serialize (.memo memo) encodingType

/-- serializerImpl.DeserializeBatchEvents: the generic deserialize
(serializer.go lines 142 to 164) with the batch branch of thriftrwDecode
(lines 168 to 172) inlined.  A nil blob yields a nil slice and no error.
The ThriftRW branch decodes through the History envelope and propagates
the decode error. -/
def DeserializeBatchEvents (data : Option DataBlob) :
    Except SerializerError (List HistoryEvent) :=
  match data with
  | none => .ok []
  | some d =>
    if d.data.isEmpty then .error (.deserializationError emptyDataMsg)
    else if d.GetEncoding = encodingTypeThriftRW then
      match thriftDecodeHistory d.data with
      | some events => .ok events
      | none => .error (.deserializationError (deserializeErrMsg d.encoding thriftDecodeFailMsg))
    else if d.GetEncoding = encodingTypeJSON ∨ d.GetEncoding = encodingTypeUnknown ∨
        d.GetEncoding = encodingTypeEmpty then
      match jsonUnmarshalBatch d.data with
      | some events => .ok events
      | none => .error (.deserializationError (deserializeErrMsg d.encoding jsonDecodeFailMsg))
    else .error (.unknownEncodingTypeError d.GetEncoding)

/-- serializerImpl.DeserializeEvent: the generic deserialize with the
single-event branch of thriftrwDecode (lines 173 to 175) inlined.  A nil
blob yields the zero-valued event and no error. -/
def DeserializeEvent (data : Option DataBlob) :
    Except SerializerError HistoryEvent :=
  match data with
  | none => .ok {}
  | some d =>
    if d.data.isEmpty then .error (.deserializationError emptyDataMsg)
    else if d.GetEncoding = encodingTypeThriftRW then
      match thriftDecodeEvent d.data with
      | some event => .ok event
      | none => .error (.deserializationError (deserializeErrMsg d.encoding thriftDecodeFailMsg))
    else if d.GetEncoding = encodingTypeJSON ∨ d.GetEncoding = encodingTypeUnknown ∨
        d.GetEncoding = encodingTypeEmpty then
      match jsonUnmarshalEvent d.data with
      | some event => .ok event
      | none => .error (.deserializationError (deserializeErrMsg d.encoding jsonDecodeFailMsg))
    else .error (.unknownEncodingTypeError d.GetEncoding)

/-- serializerImpl.DeserializeVisibilityMemo: the generic deserialize with
the memo branch of thriftrwDecode (serializer.go lines 176 to 179)
inlined.  Note that the source discards the ThriftRW decode error for
memos and reports success with whatever was written into the target (the
zero value on a failed decode).  A nil blob yields the zero-valued memo
and no error. -/
def DeserializeVisibilityMemo (data : Option DataBlob) :
    Except SerializerError Memo :=
  match data with
  | none => .ok {}
  | some d =>
    if d.data.isEmpty then .error (.deserializationError emptyDataMsg)
    else if d.GetEncoding = encodingTypeThriftRW then
      .ok (match thriftDecodeMemo d.data with
           | some memo => memo
           | none => {})
    else if d.GetEncoding = encodingTypeJSON ∨ d.GetEncoding = encodingTypeUnknown ∨
        d.GetEncoding = encodingTypeEmpty then
      match jsonUnmarshalMemo d.data with
      | some memo => .ok memo
      | none => .error (.deserializationError (deserializeErrMsg d.encoding jsonDecodeFailMsg))
    else .error (.unknownEncodingTypeError d.GetEncoding)

/-! ## Visibility interfaces (src/unnamed/part_001) -/

/-- workflow.WorkflowExecution (identity of one run). -/
structure WorkflowExecution where
  workflowId : String := ""
  runId : String := ""
  deriving DecidableEq, Repr

/-- workflow.WorkflowExecutionInfo, as assembled by the visibility read
paths.  Pointer fields that a converter may leave unset are options. -/
structure WorkflowExecutionInfo where
  execution : WorkflowExecution := {}
  typeName : String := ""
  startTime : Int := 0
  executionTime : Int := 0
  closeTime : Option Int := none
  closeStatus : Option Int := none
  historyLength : Option Int := none
  memo : Option Memo := none
  deriving DecidableEq, Repr

/-- ListWorkflowExecutionsRequest. -/
structure ListWorkflowExecutionsRequest where
  domainUUID : String := ""
  domain : String := ""
  earliestStartTime : Int := 0
  latestStartTime : Int := 0
  pageSize : Int := 0
  nextPageToken : Bytes := .raw []
  deriving DecidableEq, Repr

/-- ListWorkflowExecutionsResponse.  Executions is a slice of pointers in
the source, so an entry may be nil; NextPageToken is a byte string, empty
when there is no further page. -/
structure ListWorkflowExecutionsResponse where
  executions : List (Option WorkflowExecutionInfo) := []
  nextPageToken : Bytes := .raw []
  deriving DecidableEq, Repr

/-- RecordWorkflowExecutionStartedRequest. -/
structure RecordWorkflowExecutionStartedRequest where
  domainUUID : String := ""
  domain : String := ""
  execution : WorkflowExecution := {}
  workflowTypeName : String := ""
  startTimestamp : Int := 0
  executionTimestamp : Int := 0
  workflowTimeout : Int := 0
  memo : Bytes := .raw []
  encoding : EncodingType := ""
  deriving DecidableEq, Repr

/-- RecordWorkflowExecutionClosedRequest. -/
structure RecordWorkflowExecutionClosedRequest where
  domainUUID : String := ""
  domain : String := ""
  execution : WorkflowExecution := {}
  workflowTypeName : String := ""
  startTimestamp : Int := 0
  executionTimestamp : Int := 0
  closeTimestamp : Int := 0
  status : Int := 0
  historyLength : Int := 0
  retentionSeconds : Int := 0
  memo : Bytes := .raw []
  encoding : EncodingType := ""
  deriving DecidableEq, Repr

/-- VisibilityDeleteWorkflowExecutionRequest. -/
structure VisibilityDeleteWorkflowExecutionRequest where
  domainID : String := ""
  runID : String := ""
  deriving DecidableEq, Repr

/-! ## Search-index visibility store (elasticsearchVisibility.go) -/

/-- elasticsearchVisibility.go line 79: the widening constant the range
filter applies on both sides of the time range.  The source sets it to
1000 even though one millisecond is 1000000 nanoseconds. -/
def oneMilliSecondInNano : Int := 1000

/-- The bounds the range filter of getSearchResult places on the sort
field (Gte and Lte, lines 309 to 311). -/
structure queryRangeBounds where
  gte : Int
  lte : Int
  deriving DecidableEq, Repr

/-- The time-range filter built by getSearchResult for every list
operation (open or closed, with or without a predicate): the request
times widened by oneMilliSecondInNano on each side. -/
def searchQueryTimeRange (request : ListWorkflowExecutionsRequest) : queryRangeBounds :=
  { gte := request.earliestStartTime - oneMilliSecondInNano,
    lte := request.latestStartTime + oneMilliSecondInNano }

/-- The visibilityRecord struct the search hit source is unmarshalled
into (elasticsearchVisibility.go lines 60 to 71). -/
structure visibilityRecord where
  workflowID : String := ""
  runID : String := ""
  workflowType : String := ""
  startTime : Int := 0
  executionTime : Int := 0
  closeTime : Int := 0
  closeStatus : Int := 0
  historyLength : Int := 0
  memo : Bytes := .raw []
  encoding : EncodingType := ""
  deriving DecidableEq, Repr

/-- The document source of a search hit: either bytes that unmarshal into
a visibilityRecord, or malformed bytes json.Unmarshal rejects. -/
inductive HitSource where
  | valid (record : visibilityRecord)
  | malformed (bytes : List Nat)
  deriving DecidableEq, Repr

/-- elastic.SearchHit: the document id and its source. -/
structure SearchHit where
  id : String := ""
  source : HitSource := .malformed []
  deriving DecidableEq, Repr

/-- elastic.SearchHits: the total hit count of the query and the hits of
the current page. -/
structure SearchHits where
  totalHits : Int := 0
  hits : List SearchHit := []
  deriving DecidableEq, Repr

/-- config.VisibilityConfig, reduced to the field the pagination logic
reads. -/
structure VisibilityConfig where
  esIndexMaxResultWindow : Int
  deriving DecidableEq, Repr

/-- Modelled from the spec: the thrift-generated GetStartTime accessor
(.gen/go/shared, not under src/), returning the zero value when the
record or the field is absent. -/
def getStartTime : Option WorkflowExecutionInfo → Int
  | some record => record.startTime
  | none => 0

/-- Modelled from the spec: the thrift-generated GetCloseTime accessor. -/
def getCloseTime : Option WorkflowExecutionInfo → Int
  | some record =>
    match record.closeTime with
    | some t => t
    | none => 0
  | none => 0

/-- Modelled from the spec: GetExecution().GetRunId() through the
thrift-generated accessors. -/
def getRunId : Option WorkflowExecutionInfo → String
  | some record => record.execution.runId
  | none => ""

/-- esVisibilityManager.serializePageToken: json.Marshal of the token
(which cannot fail on this struct, so the error branch is not taken). -/
def serializePageToken (token : esVisibilityPageToken) : Bytes :=
  .jsonOfPageToken token

/-- esVisibilityManager.convertSearchResultToVisibilityRecord
(elasticsearchVisibility.go lines 407 to 459).  A hit source that fails
to unmarshal is logged and yields nil.  The memo blob is deserialized
through the serializer; on failure the error is only logged and the memo
variable (a never-nil pointer to a zero-or-decoded Memo) is still placed
in the record. -/
def convertSearchResultToVisibilityRecord (hit : SearchHit) (isOpen : Bool) :
    Option WorkflowExecutionInfo :=
  match hit.source with
  | .malformed _ => none
  | .valid source =>
    let executionTime := if source.executionTime = 0 then source.startTime else source.executionTime
    let memoResult := DeserializeVisibilityMemo (NewDataBlob source.memo source.encoding)
    let memo : Memo :=
      match memoResult with
      | .ok m => m
      | .error _ => {}
    if isOpen then
      some { execution := { workflowId := source.workflowID, runId := source.runID },
             typeName := source.workflowType,
             startTime := source.startTime,
             executionTime := executionTime,
             memo := some memo }
    else
      some { execution := { workflowId := source.workflowID, runId := source.runID },
             typeName := source.workflowType,
             startTime := source.startTime,
             executionTime := executionTime,
             closeTime := some source.closeTime,
             closeStatus := some source.closeStatus,
             historyLength := some source.historyLength,
             memo := some memo }

/-- esVisibilityManager.getListWorkflowExecutionsResponse
(elasticsearchVisibility.go lines 344 to 384).  Every hit is converted
and appended (a nil conversion included).  A next-page token is built
only when the hit count equals the page size: an offset token while the
total hits fit in the max result window, otherwise a search-after token
taken from the last appended record through the accessors.  In the
search-after branch with an empty page the source indexes the executions
slice at -1, a runtime failure, modelled as none. -/
def getListWorkflowExecutionsResponse (config : VisibilityConfig)
    (searchHits : SearchHits) (token : esVisibilityPageToken)
    (isOpen : Bool) (pageSize : Int) :
    Option ListWorkflowExecutionsResponse :=
  let actualHits := searchHits.hits
  let numOfActualHits := actualHits.length
  let executions := actualHits.map (fun hit => convertSearchResultToVisibilityRecord hit isOpen)
  if (numOfActualHits : Int) = pageSize then
    if searchHits.totalHits ≤ config.esIndexMaxResultWindow then
      some { executions := executions,
             nextPageToken := serializePageToken
               { From := token.From + (numOfActualHits : Int) } }
    else
      match executions.getLast? with
      | none => none
      | some lastExecution =>
        let sortTime := if isOpen then getStartTime lastExecution else getCloseTime lastExecution
        some { executions := executions,
               nextPageToken := serializePageToken
                 { SortTime := sortTime, TieBreaker := getRunId lastExecution } }
  else
    some { executions := executions }

/-- The error taxonomy surfaced by the visibility backends
(workflow.InternalServiceError, workflow.ServiceBusyError,
workflow.BadRequestError, a generic error from errors.New). -/
inductive WfError where
  | internalServiceError (msg : String)
  | serviceBusyError (msg : String)
  | badRequestError (msg : String)
  | genericError (msg : String)
  deriving DecidableEq, Repr

/-- errOperationNotSupported (elasticsearchVisibility.go line 77). -/
def errOperationNotSupported : WfError := .genericError "operation not support"

/-- The stored documents of the search index, threaded through the write
operations to state their frame condition. -/
structure ESIndexState where
  documents : List SearchHit := []
  deriving DecidableEq, Repr

/-- esVisibilityManager.RecordWorkflowExecutionStarted
(elasticsearchVisibility.go lines 99 to 101): returns
errOperationNotSupported without touching the index. -/
def esRecordWorkflowExecutionStarted (state : ESIndexState)
    (request : RecordWorkflowExecutionStartedRequest) :
    Option WfError × ESIndexState :=
  (some errOperationNotSupported, state)

/-- esVisibilityManager.RecordWorkflowExecutionClosed
(elasticsearchVisibility.go lines 103 to 105). -/
def esRecordWorkflowExecutionClosed (state : ESIndexState)
    (request : RecordWorkflowExecutionClosedRequest) :
    Option WfError × ESIndexState :=
  (some errOperationNotSupported, state)

/-- esVisibilityManager.DeleteWorkflowExecution (elasticsearchVisibility.go
lines 279 to 281): returns nil and performs no operation. -/
def esDeleteWorkflowExecution (state : ESIndexState)
    (request : VisibilityDeleteWorkflowExecutionRequest) :
    Option WfError × ESIndexState :=
  (none, state)

/-! ## Columnar visibility store V2 (cassandraVisibilityPersistenceV2.go) -/

/-- A driver error returned when closing a query iterator: either the
throttling signal of the driver or any other error. -/
inductive CqlErr where
  | requestThrottled (msg : String)
  | other (msg : String)
  deriving DecidableEq, Repr

/-- The Error() text of a driver error. -/
def CqlErr.text : CqlErr → String
  | .requestThrottled msg => msg
  | .other msg => msg

/-- Modelled from the spec: isThrottlingError (shared cassandra helpers,
not under src/) recognizes exactly the throttling signal of the driver
(spec: driver throttling signals map to ServiceBusy). -/
def isThrottlingError : CqlErr → Bool
  | .requestThrottled _ => true
  | .other _ => false

/-- The outcome of a driver query iterator: the rows it yields (already
decoded into records by readClosedWorkflowExecutionRecord, which lives in
the V1 persistence file outside src/), the paging state, and the error
reported when the iterator is closed. -/
structure CqlIter where
  records : List WorkflowExecutionInfo := []
  pageState : List Nat := []
  closeErr : Option CqlErr := none
  deriving DecidableEq, Repr

/-- The shared body of the four closed-list operations of
cassandraVisibilityPersistenceV2.go: a nil iterator yields an internal
error; otherwise the rows are drained into the response, the paging state
is copied, and an error on iterator close maps to ServiceBusy when it is
the throttling signal and to an internal error naming the operation
otherwise.  The four operations differ only in the query template and the
operation name interpolated into the messages. -/
def listClosedV2Core (opName : String) (iter : Option CqlIter) :
    Except WfError ListWorkflowExecutionsResponse :=
  match iter with
  | none =>
    .error (.internalServiceError
      (opName ++ " operation failed.  Not able to create query iterator."))
  | some it =>
    let executions := it.records.map some
    match it.closeErr with
    | some err =>
      if isThrottlingError err then
        .error (.serviceBusyError (opName ++ " operation failed. Error: " ++ err.text))
      else
        .error (.internalServiceError (opName ++ " operation failed. Error: " ++ err.text))
    | none =>
      .ok { executions := executions, nextPageToken := .raw it.pageState }

/-- cassandraVisibilityPersistenceV2.ListClosedWorkflowExecutions
(lines 139 to 177), as a function of the driver iterator outcome. -/
def ListClosedWorkflowExecutions (iter : Option CqlIter) :
    Except WfError ListWorkflowExecutionsResponse :=
  listClosedV2Core "ListClosedWorkflowExecutions" iter

/-- cassandraVisibilityPersistenceV2.ListClosedWorkflowExecutionsByType
(lines 179 to 218). -/
def ListClosedWorkflowExecutionsByType (iter : Option CqlIter) :
    Except WfError ListWorkflowExecutionsResponse :=
  listClosedV2Core "ListClosedWorkflowExecutionsByType" iter

/-- cassandraVisibilityPersistenceV2.ListClosedWorkflowExecutionsByWorkflowID
(lines 220 to 259). -/
def ListClosedWorkflowExecutionsByWorkflowID (iter : Option CqlIter) :
    Except WfError ListWorkflowExecutionsResponse :=
  listClosedV2Core "ListClosedWorkflowExecutionsByWorkflowID" iter

/-- cassandraVisibilityPersistenceV2.ListClosedWorkflowExecutionsByStatus
(lines 261 to 300). -/
def ListClosedWorkflowExecutionsByStatus (iter : Option CqlIter) :
    Except WfError ListWorkflowExecutionsResponse :=
  listClosedV2Core "ListClosedWorkflowExecutionsByStatus" iter

/-- The stored rows of the columnar backend, threaded through the delete
operation to state its frame condition. -/
structure CassandraVisibilityState where
  closedRows : List WorkflowExecutionInfo := []
  deriving DecidableEq, Repr

/-- cassandraVisibilityPersistenceV2.DeleteWorkflowExecution (lines 302 to
305): a no-op that returns nil (deletes are handled by the cassandra
TTLs). -/
def cassandraV2DeleteWorkflowExecution (state : CassandraVisibilityState)
    (request : VisibilityDeleteWorkflowExecutionRequest) :
    Option WfError × CassandraVisibilityState :=
  (none, state)

/-! ## Theorems -/

/-- C1: the claim states that every list operation on the search-index
backend widens the time-range filter by one millisecond (1000000
nanoseconds) on each side.  The source instead widens by the constant
oneMilliSecondInNano = 1000, which is one microsecond: at the request
with both times 0 the filter is [-1000, 1000], not [-1000000, 1000000].
The variable name and the source comment (add resolution 1ms) show the
one-millisecond widening is the intent, so this is a bug in the code. -/
theorem c1_range_widening_is_one_microsecond :
    searchQueryTimeRange { domainUUID := "d", earliestStartTime := 0, latestStartTime := 0,
                           pageSize := 10 } = { gte := -1000, lte := 1000 } ∧
    oneMilliSecondInNano = 1000 ∧ oneMilliSecondInNano ≠ 1000000 ∧
    ((-1000 : Int) ≠ -1000000 ∧ (1000 : Int) ≠ 1000000) := by
  refine ⟨rfl, rfl, by decide, by decide, by decide⟩

/-- C7: RecordWorkflowExecutionStarted and RecordWorkflowExecutionClosed
on the search-index backend return the operation-not-supported error and
leave the index state unchanged, for every state and every request. -/
theorem c7_es_record_not_supported (state : ESIndexState)
    (startedRequest : RecordWorkflowExecutionStartedRequest)
    (closedRequest : RecordWorkflowExecutionClosedRequest) :
    esRecordWorkflowExecutionStarted state startedRequest = (some errOperationNotSupported, state) ∧
    esRecordWorkflowExecutionClosed state closedRequest = (some errOperationNotSupported, state) :=
  ⟨rfl, rfl⟩

/-- C8: DeleteWorkflowExecution is a successful no-op on both the
columnar V2 backend and the search-index backend: it returns no error and
leaves the stored state unchanged, for every state and request. -/
theorem c8_delete_is_noop (cassandraState : CassandraVisibilityState)
    (esState : ESIndexState) (request : VisibilityDeleteWorkflowExecutionRequest) :
    cassandraV2DeleteWorkflowExecution cassandraState request = (none, cassandraState) ∧
    esDeleteWorkflowExecution esState request = (none, esState) :=
  ⟨rfl, rfl⟩

/-- C9: a search hit whose document source fails to unmarshal converts to
nil, and that nil is appended to the executions of the page, so a page
may contain nil entries.  First part: with total hits within the window,
the returned page holds exactly a nil entry.  Second part: with total
hits beyond the window, the same page takes the search-after branch and
the token is built by reading the last entry, which is that nil (the
nil-tolerant accessors yield the zero sort time and an empty
tie-breaker). -/
theorem c9_nil_executions_in_page :
    (getListWorkflowExecutionsResponse { esIndexMaxResultWindow := 10 }
        { totalHits := 5, hits := [{ id := "doc1", source := .malformed [0] }] }
        {} false 1) =
      some { executions := [none],
             nextPageToken := serializePageToken { From := 1 } } ∧
    (getListWorkflowExecutionsResponse { esIndexMaxResultWindow := 10 }
        { totalHits := 99, hits := [{ id := "doc1", source := .malformed [0] }] }
        {} false 1) =
      some { executions := [none],
             nextPageToken := serializePageToken { SortTime := 0, TieBreaker := "" } } := by
  constructor <;> rfl

/-- C2: for each recognized write encoding (JSON and THRIFT_RW) and every
value of the three supported types, serializing succeeds with a non-nil
blob and deserializing that blob returns the original value with no
error. -/
theorem c2_serializer_roundtrip (encodingType : EncodingType)
    (he : encodingType = encodingTypeJSON ∨ encodingType = encodingTypeThriftRW)
    (events : List HistoryEvent) (event : HistoryEvent) (memo : Memo) :
    (∃ d, SerializeBatchEvents events encodingType = .ok (some d) ∧
          DeserializeBatchEvents (some d) = .ok events) ∧
    (∃ d, SerializeEvent event encodingType = .ok (some d) ∧
          DeserializeEvent (some d) = .ok event) ∧
    (∃ d, SerializeVisibilityMemo memo encodingType = .ok (some d) ∧
          DeserializeVisibilityMemo (some d) = .ok memo) := by
  rcases he with h | h <;> subst h
  · exact ⟨⟨{ data := .jsonOfBatch events, encoding := encodingTypeJSON }, rfl, rfl⟩,
           ⟨{ data := .jsonOfEvent event, encoding := encodingTypeJSON }, rfl, rfl⟩,
           ⟨{ data := .jsonOfMemo memo, encoding := encodingTypeJSON }, rfl, rfl⟩⟩
  · exact ⟨⟨{ data := .thriftOfHistory events, encoding := encodingTypeThriftRW }, rfl, rfl⟩,
           ⟨{ data := .thriftOfEvent event, encoding := encodingTypeThriftRW }, rfl, rfl⟩,
           ⟨{ data := .thriftOfMemo memo, encoding := encodingTypeThriftRW }, rfl, rfl⟩⟩

/-- Witness for C2 at the JSON encoding and concrete values. -/
theorem c2_serializer_roundtrip_witness :
    (∃ d, SerializeBatchEvents [] encodingTypeJSON = .ok (some d) ∧
          DeserializeBatchEvents (some d) = .ok ([] : List HistoryEvent)) ∧
    (∃ d, SerializeEvent {} encodingTypeJSON = .ok (some d) ∧
          DeserializeEvent (some d) = .ok ({} : HistoryEvent)) ∧
    (∃ d, SerializeVisibilityMemo {} encodingTypeJSON = .ok (some d) ∧
          DeserializeVisibilityMemo (some d) = .ok ({} : Memo)) :=
  c2_serializer_roundtrip encodingTypeJSON (Or.inl rfl) [] {} {}

/-- The deserialization failure message can never coincide with the
empty-data message: its fixed parts are already longer. -/
@[simp] theorem deserializeErrMsg_ne_emptyDataMsg (encoding cause : String) :
    (deserializeErrMsg encoding cause = emptyDataMsg) = False := by
  refine eq_false fun h => ?_
  have hl := congrArg String.length h
  rw [deserializeErrMsg, emptyDataMsg, String.length_append, String.length_append,
    String.length_append] at hl
  have h1 : ("DeserializeBatchEvents encoding: \"" : String).length = 34 := rfl
  have h2 : ("\", error: " : String).length = 10 := rfl
  have h3 : ("DeserializeEvent empty data" : String).length = 27 := rfl
  omega

/-- C10: a nil blob passed to any of the three deserializers yields no
error and the zero-valued result (an empty batch, the zero event, the
zero memo); the empty-data deserialization error arises exactly for a
non-nil blob whose payload has length zero. -/
theorem c10_nil_blob_deserialization :
    DeserializeBatchEvents none = .ok [] ∧
    DeserializeEvent none = .ok {} ∧
    DeserializeVisibilityMemo none = .ok {} ∧
    (∀ data : Option DataBlob,
      (DeserializeBatchEvents data = .error (.deserializationError emptyDataMsg) ∨
       DeserializeEvent data = .error (.deserializationError emptyDataMsg) ∨
       DeserializeVisibilityMemo data = .error (.deserializationError emptyDataMsg)) →
      ∃ d, data = some d ∧ d.data.isEmpty = true) ∧
    (∀ d : DataBlob, d.data.isEmpty = true →
      DeserializeBatchEvents (some d) = .error (.deserializationError emptyDataMsg) ∧
      DeserializeEvent (some d) = .error (.deserializationError emptyDataMsg) ∧
      DeserializeVisibilityMemo (some d) = .error (.deserializationError emptyDataMsg)) := by
  refine ⟨rfl, rfl, rfl, ?_, ?_⟩
  · intro data h
    cases data with
    | none =>
      rcases h with h | h | h <;>
        simp [DeserializeBatchEvents, DeserializeEvent, DeserializeVisibilityMemo] at h
    | some d =>
      refine ⟨d, rfl, ?_⟩
      by_contra hne
      rw [Bool.not_eq_true] at hne
      rcases h with h | h | h
      · unfold DeserializeBatchEvents at h
        simp only [hne, Bool.false_eq_true, if_false] at h
        repeat' split at h
        all_goals simp_all
      · unfold DeserializeEvent at h
        simp only [hne, Bool.false_eq_true, if_false] at h
        repeat' split at h
        all_goals simp_all
      · unfold DeserializeVisibilityMemo at h
        simp only [hne, Bool.false_eq_true, if_false] at h
        repeat' split at h
        all_goals simp_all
  · intro d hd
    refine ⟨?_, ?_, ?_⟩ <;>
      simp [DeserializeBatchEvents, DeserializeEvent, DeserializeVisibilityMemo, hd]

/-- Witness for C10 at a concrete non-nil blob with an empty payload. -/
theorem c10_nil_blob_deserialization_witness :
    ∃ d, (some { data := Bytes.raw [], encoding := encodingTypeJSON } : Option DataBlob) = some d ∧
      d.data.isEmpty = true :=
  c10_nil_blob_deserialization.2.2.2.1
    (some { data := Bytes.raw [], encoding := encodingTypeJSON })
    (Or.inl (by rfl))

/-- C3 counterexample: the visibility-memo deserializer, given a non-nil
THRIFT_RW-tagged blob whose non-empty payload fails to decode, silently
returns success with the zero-valued memo instead of the Deserialization
error the claim requires (the source discards the ThriftRW decode error
for memos). -/
theorem c3_counterexample :
    DeserializeVisibilityMemo
        (some { data := Bytes.raw [1], encoding := encodingTypeThriftRW }) =
      .ok ({} : Memo) := by
  rfl

/-- C3 as amended: for every non-nil blob with a recognized read tag and
a non-empty payload that fails to unmarshal, the batch and single-event
deserializers always return a Deserialization error whose message
includes the raw encoding tag of the blob, and so does the memo
deserializer under the JSON-decoded tags (JSON, UNKNOWN, EMPTY); the one
exception is the memo deserializer under THRIFT_RW, which ignores the
decode failure and returns the zero-valued memo with no error. -/
theorem c3_deserialize_error_includes_tag (d : DataBlob)
    (hne : d.data.isEmpty = false) :
    ((d.GetEncoding = encodingTypeJSON ∨ d.GetEncoding = encodingTypeUnknown ∨
        d.GetEncoding = encodingTypeEmpty) →
      ((jsonUnmarshalBatch d.data = none →
          DeserializeBatchEvents (some d) =
            .error (.deserializationError (deserializeErrMsg d.encoding jsonDecodeFailMsg))) ∧
       (jsonUnmarshalEvent d.data = none →
          DeserializeEvent (some d) =
            .error (.deserializationError (deserializeErrMsg d.encoding jsonDecodeFailMsg))) ∧
       (jsonUnmarshalMemo d.data = none →
          DeserializeVisibilityMemo (some d) =
            .error (.deserializationError (deserializeErrMsg d.encoding jsonDecodeFailMsg))))) ∧
    (d.GetEncoding = encodingTypeThriftRW →
      ((thriftDecodeHistory d.data = none →
          DeserializeBatchEvents (some d) =
            .error (.deserializationError (deserializeErrMsg d.encoding thriftDecodeFailMsg))) ∧
       (thriftDecodeEvent d.data = none →
          DeserializeEvent (some d) =
            .error (.deserializationError (deserializeErrMsg d.encoding thriftDecodeFailMsg))) ∧
       (thriftDecodeMemo d.data = none →
          DeserializeVisibilityMemo (some d) = .ok ({} : Memo)))) ∧
    (∃ before after, deserializeErrMsg d.encoding jsonDecodeFailMsg =
        before ++ d.encoding ++ after) ∧
    (∃ before after, deserializeErrMsg d.encoding thriftDecodeFailMsg =
        before ++ d.encoding ++ after) := by
  have hjsonne : d.GetEncoding = encodingTypeJSON → d.GetEncoding ≠ encodingTypeThriftRW := by
    intro h; rw [h]; decide
  have hunkne : d.GetEncoding = encodingTypeUnknown → d.GetEncoding ≠ encodingTypeThriftRW := by
    intro h; rw [h]; decide
  have hempne : d.GetEncoding = encodingTypeEmpty → d.GetEncoding ≠ encodingTypeThriftRW := by
    intro h; rw [h]; decide
  refine ⟨?_, ?_, ?_, ?_⟩
  · intro henc
    have hnotthrift : ¬ d.GetEncoding = encodingTypeThriftRW := by
      rcases henc with h | h | h
      exacts [hjsonne h, hunkne h, hempne h]
    refine ⟨?_, ?_, ?_⟩ <;> intro hfail
    · simp [DeserializeBatchEvents, hne, hnotthrift, henc, hfail]
    · simp [DeserializeEvent, hne, hnotthrift, henc, hfail]
    · simp [DeserializeVisibilityMemo, hne, hnotthrift, henc, hfail]
  · intro henc
    refine ⟨?_, ?_, ?_⟩ <;> intro hfail
    · simp [DeserializeBatchEvents, hne, henc, hfail]
    · simp [DeserializeEvent, hne, henc, hfail]
    · simp [DeserializeVisibilityMemo, hne, henc, hfail]
  · exact ⟨"DeserializeBatchEvents encoding: \"",
           "\", error: " ++ jsonDecodeFailMsg, by simp [deserializeErrMsg, String.append_assoc]⟩
  · exact ⟨"DeserializeBatchEvents encoding: \"",
           "\", error: " ++ thriftDecodeFailMsg, by simp [deserializeErrMsg, String.append_assoc]⟩

/-- Witness for C3 as amended: a JSON-tagged blob with a malformed
payload makes the batch deserializer fail with the tag-carrying
message. -/
theorem c3_deserialize_error_includes_tag_witness :
    DeserializeBatchEvents (some { data := Bytes.raw [1], encoding := encodingTypeJSON }) =
      .error (.deserializationError (deserializeErrMsg encodingTypeJSON jsonDecodeFailMsg)) :=
  ((c3_deserialize_error_includes_tag
      { data := Bytes.raw [1], encoding := encodingTypeJSON } rfl).1
    (Or.inl rfl)).1 rfl

/-- C4 counterexample: for a hit whose memo bytes fail to deserialize
(JSON tag, malformed payload), the converter does return a record without
error, but its memo field holds a present, zero-valued memo object rather
than being dropped (absent) as the claim states. -/
theorem c4_counterexample :
    ((convertSearchResultToVisibilityRecord
        { id := "doc1",
          source := .valid { workflowID := "w", runID := "r", workflowType := "t",
                             startTime := 1, executionTime := 1, closeTime := 2,
                             closeStatus := 0, historyLength := 3,
                             memo := .raw [7], encoding := "json" } }
        false).map (fun record => record.memo)) = some (some ({} : Memo)) ∧
    ¬ ((convertSearchResultToVisibilityRecord
        { id := "doc1",
          source := .valid { workflowID := "w", runID := "r", workflowType := "t",
                             startTime := 1, executionTime := 1, closeTime := 2,
                             closeStatus := 0, historyLength := 3,
                             memo := .raw [7], encoding := "json" } }
        false).map (fun record => record.memo)) = some none := by
  refine ⟨rfl, by decide⟩

/-- C4 as amended: for every search hit with a well-formed document
source whose memo blob fails to deserialize, the converter still returns
the record without error, with the memo content dropped: the memo field
holds the zero-valued memo (a present but empty object) instead of the
decoded content.  A malformed memo therefore never fails the read
path. -/
theorem c4_malformed_memo_record_returned (hit : SearchHit)
    (source : visibilityRecord) (isOpen : Bool)
    (hsource : hit.source = .valid source)
    (hfail : ∃ msg, DeserializeVisibilityMemo (NewDataBlob source.memo source.encoding) =
      .error (.deserializationError msg)) :
    (convertSearchResultToVisibilityRecord hit isOpen).map (fun record => record.memo) =
      some (some ({} : Memo)) := by
  obtain ⟨msg, hmsg⟩ := hfail
  cases isOpen <;> simp [convertSearchResultToVisibilityRecord, hsource, hmsg]

/-- Witness for C4 as amended at a concrete hit with a JSON-tagged
malformed memo. -/
theorem c4_malformed_memo_record_returned_witness :
    (convertSearchResultToVisibilityRecord
        { id := "doc1",
          source := .valid { workflowID := "w", runID := "r", workflowType := "t",
                             startTime := 1, executionTime := 1, closeTime := 2,
                             closeStatus := 0, historyLength := 3,
                             memo := .raw [7], encoding := "json" } }
        false).map (fun record => record.memo) = some (some ({} : Memo)) :=
  c4_malformed_memo_record_returned _ _ false rfl
    ⟨deserializeErrMsg "json" jsonDecodeFailMsg, rfl⟩

/-- C6: on every closed-list operation of the columnar V2 backend, a
driver error reported when closing the query iterator maps to ServiceBusy
when it is the throttling signal and to an internal error naming the
operation and wrapping the cause otherwise; a throttling error is never
surfaced as an internal error. -/
theorem c6_closed_list_error_mapping (it : CqlIter) (e : CqlErr)
    (hclose : it.closeErr = some e) :
    (isThrottlingError e = true →
      (ListClosedWorkflowExecutions (some it) =
        .error (.serviceBusyError
          ("ListClosedWorkflowExecutions operation failed. Error: " ++ e.text)) ∧
       ListClosedWorkflowExecutionsByType (some it) =
        .error (.serviceBusyError
          ("ListClosedWorkflowExecutionsByType operation failed. Error: " ++ e.text)) ∧
       ListClosedWorkflowExecutionsByWorkflowID (some it) =
        .error (.serviceBusyError
          ("ListClosedWorkflowExecutionsByWorkflowID operation failed. Error: " ++ e.text)) ∧
       ListClosedWorkflowExecutionsByStatus (some it) =
        .error (.serviceBusyError
          ("ListClosedWorkflowExecutionsByStatus operation failed. Error: " ++ e.text)) ∧
       (∀ opName msg, listClosedV2Core opName (some it) ≠
          .error (.internalServiceError msg)))) ∧
    (isThrottlingError e = false →
      (ListClosedWorkflowExecutions (some it) =
        .error (.internalServiceError
          ("ListClosedWorkflowExecutions operation failed. Error: " ++ e.text)) ∧
       ListClosedWorkflowExecutionsByType (some it) =
        .error (.internalServiceError
          ("ListClosedWorkflowExecutionsByType operation failed. Error: " ++ e.text)) ∧
       ListClosedWorkflowExecutionsByWorkflowID (some it) =
        .error (.internalServiceError
          ("ListClosedWorkflowExecutionsByWorkflowID operation failed. Error: " ++ e.text)) ∧
       ListClosedWorkflowExecutionsByStatus (some it) =
        .error (.internalServiceError
          ("ListClosedWorkflowExecutionsByStatus operation failed. Error: " ++ e.text)))) := by
  constructor <;> intro hthr
  · refine ⟨?_, ?_, ?_, ?_, ?_⟩
    · simp [ListClosedWorkflowExecutions, listClosedV2Core, hclose, hthr]
    · simp [ListClosedWorkflowExecutionsByType, listClosedV2Core, hclose, hthr]
    · simp [ListClosedWorkflowExecutionsByWorkflowID, listClosedV2Core, hclose, hthr]
    · simp [ListClosedWorkflowExecutionsByStatus, listClosedV2Core, hclose, hthr]
    · intro opName msg
      simp [listClosedV2Core, hclose, hthr]
  · refine ⟨?_, ?_, ?_, ?_⟩
    · simp [ListClosedWorkflowExecutions, listClosedV2Core, hclose, hthr]
    · simp [ListClosedWorkflowExecutionsByType, listClosedV2Core, hclose, hthr]
    · simp [ListClosedWorkflowExecutionsByWorkflowID, listClosedV2Core, hclose, hthr]
    · simp [ListClosedWorkflowExecutionsByStatus, listClosedV2Core, hclose, hthr]

/-- Witness for C6 at a concrete iterator whose close reports the
throttling signal. -/
theorem c6_closed_list_error_mapping_witness :
    ListClosedWorkflowExecutions
        (some { records := [], pageState := [],
                closeErr := some (.requestThrottled "request throttled") }) =
      .error (.serviceBusyError
        ("ListClosedWorkflowExecutions operation failed. Error: " ++
          CqlErr.text (.requestThrottled "request throttled"))) :=
  ((c6_closed_list_error_mapping
      { records := [], pageState := [],
        closeErr := some (.requestThrottled "request throttled") }
      (.requestThrottled "request throttled") rfl).1 rfl).1

/-- C5: whenever a list call on the search-index backend returns a page,
a non-empty next-page token is present only when the number of returned
records equals the requested page size; on a full page, when the total
hit count is at most the configured max result window the token carries
From equal to the From of the previous token plus the returned count, and
when the total hit count exceeds the window the token instead carries the
sort time and the run id tie-breaker read from the last returned
record. -/
theorem c5_next_page_token (config : VisibilityConfig) (searchHits : SearchHits)
    (token : esVisibilityPageToken) (isOpen : Bool) (pageSize : Int)
    (response : ListWorkflowExecutionsResponse)
    (hresp : getListWorkflowExecutionsResponse config searchHits token isOpen pageSize =
      some response) :
    (response.nextPageToken.isEmpty = false → (searchHits.hits.length : Int) = pageSize) ∧
    ((searchHits.hits.length : Int) = pageSize →
      searchHits.totalHits ≤ config.esIndexMaxResultWindow →
      response.nextPageToken =
        serializePageToken { From := token.From + (searchHits.hits.length : Int) }) ∧
    ((searchHits.hits.length : Int) = pageSize →
      config.esIndexMaxResultWindow < searchHits.totalHits →
      ∃ lastExecution, response.executions.getLast? = some lastExecution ∧
        response.nextPageToken = serializePageToken
          { SortTime := if isOpen then getStartTime lastExecution else getCloseTime lastExecution,
            TieBreaker := getRunId lastExecution }) := by
  unfold getListWorkflowExecutionsResponse at hresp
  simp only at hresp
  split at hresp
  · rename_i hfull
    split at hresp
    · rename_i hwin
      rw [Option.some.injEq] at hresp
      subst hresp
      refine ⟨fun _ => hfull, fun _ _ => rfl, fun _ hgt => absurd hwin (not_le.mpr hgt)⟩
    · rename_i hwin
      split at hresp
      · exact absurd hresp (by simp)
      · rename_i lastExecution hlast
        rw [Option.some.injEq] at hresp
        subst hresp
        refine ⟨fun _ => hfull, fun _ hle => absurd hle hwin, fun _ _ => ⟨lastExecution, hlast, rfl⟩⟩
  · rename_i hnotfull
    rw [Option.some.injEq] at hresp
    subst hresp
    exact ⟨fun hne => by simp [Bytes.isEmpty] at hne,
           fun hfull => absurd hfull hnotfull,
           fun hfull => absurd hfull hnotfull⟩

/-- Witness for C5: one full page within the max result window advances
the From offset of the token by the page size. -/
theorem c5_next_page_token_witness :
    ((getListWorkflowExecutionsResponse { esIndexMaxResultWindow := 10 }
        { totalHits := 5,
          hits := [{ id := "doc1",
                     source := .valid { workflowID := "w", runID := "r", workflowType := "t",
                                        startTime := 1, executionTime := 1, closeTime := 2,
                                        closeStatus := 0, historyLength := 3,
                                        memo := .raw [], encoding := "json" } }] }
        { From := 3 } false 1 = some { executions := [some { execution := { workflowId := "w", runId := "r" },
                                                             typeName := "t", startTime := 1,
                                                             executionTime := 1, closeTime := some 2,
                                                             closeStatus := some 0,
                                                             historyLength := some 3,
                                                             memo := some {} }],
                                       nextPageToken := serializePageToken { From := 4 } }) ∧
      ((1 : Int) = 1 → (5 : Int) ≤ 10 →
        serializePageToken { From := 4 } = serializePageToken { From := 3 + (1 : Int) })) := by
  refine ⟨by rfl, ?_⟩
  exact (c5_next_page_token { esIndexMaxResultWindow := 10 }
    { totalHits := 5,
      hits := [{ id := "doc1",
                 source := .valid { workflowID := "w", runID := "r", workflowType := "t",
                                    startTime := 1, executionTime := 1, closeTime := 2,
                                    closeStatus := 0, historyLength := 3,
                                    memo := .raw [], encoding := "json" } }] }
    { From := 3 } false 1 _ (by rfl)).2.1

end Cadence
